import Mathlib

set_option maxHeartbeats 1000000

/-!
Verification of the CardioMap GIS helper utilities.

This file gives a shallow embedding of the three Python tools of the
repository — the Name Reconciler (`public/check_names.py`), the Nested Path
Extractor (`src/components/GIS/helper/extract_nested_values.py`) and the
Schema Analyzer (`src/components/GIS/helper/geojson_structure_analyzer.py`) —
and proves properties of them.  JSON documents (as produced by Python's
`json.load`) are modelled by the inductive type `Json`; Python numbers are
modelled by `Int` (none of the verified properties depends on float
formatting).  Machine-level behaviour such as file IO and console printing is
out of scope; the pure computations on the loaded documents are modelled
faithfully.
-/

/-- A JSON value as loaded by Python's `json` module: a string, a number, a
boolean, `null` (Python `None`), an array, or an object.  Objects keep their
key order (Python dicts preserve insertion order); keys of a parsed object are
unique because `json.load` keeps only the last binding of a duplicated key. -/
inductive Json where
  | str (s : String)
  | num (n : Int)
  | bool (b : Bool)
  | null
  | arr (xs : List Json)
  | obj (kvs : List (String × Json))

/-- Lookup of a key in an object's key/value list; models Python's
`key in d` / `d[key]` pair on a dict (keys are unique after parsing, so
first-match lookup agrees with dict lookup). -/
def lookupKV (kvs : List (String × Json)) (k : String) : Option Json :=
  match kvs with
  | [] => none
  | (k0, v) :: rest => if k0 = k then some v else lookupKV rest k

/-- Python's `value is None` test on a JSON-loaded value: only the `null`
value is the `None` object. -/
def isNone (v : Json) : Bool :=
  match v with
  | .null => true
  | _ => false

/-- Python truthiness of a JSON-loaded value: empty string, zero, `False`,
`None`, empty list and empty dict are falsy; everything else is truthy. -/
def pyTruthy (v : Json) : Bool :=
  match v with
  | .str s => !(s == "")
  | .num n => !(n == 0)
  | .bool b => b
  | .null => false
  | .arr xs => !xs.isEmpty
  | .obj kvs => !kvs.isEmpty

mutual
/-- Python `repr` of a JSON-loaded value, as used inside container
stringification.  Strings are modelled as quoted with single quotes; the
model covers strings without embedded quotes, backslashes or control
characters (Python would escape those). -/
def pyRepr : Json → String
  | .str s => "\x27" ++ s ++ "\x27"
  | .num n => toString n
  | .bool b => if b then "True" else "False"
  | .null => "None"
  | .arr xs => "[" ++ pyReprList xs ++ "]"
  | .obj kvs => "\x7b" ++ pyReprObj kvs ++ "\x7d"
/-- `repr` of the elements of a Python list, joined by `", "`. -/
def pyReprList : List Json → String
  | [] => ""
  | [x] => pyRepr x
  | x :: y :: xs => pyRepr x ++ ", " ++ pyReprList (y :: xs)
/-- `repr` of the items of a Python dict, joined by `", "`. -/
def pyReprObj : List (String × Json) → String
  | [] => ""
  | [(k, v)] => "\x27" ++ k ++ "\x27: " ++ pyRepr v
  | (k, v) :: y :: xs => "\x27" ++ k ++ "\x27: " ++ pyRepr v ++ ", " ++ pyReprObj (y :: xs)
end

/-- Python `str` of a JSON-loaded value: a string is returned unchanged, a
container is rendered via the `repr` of its elements, and numbers, booleans
and `None` render as their `repr`. -/
def pyStr : Json → String
  | .str s => s
  | .arr xs => "[" ++ pyReprList xs ++ "]"
  | .obj kvs => "\x7b" ++ pyReprObj kvs ++ "\x7d"
  | v => pyRepr v

/-- Python `s.split(sep)` for a single-character separator `sep`: the empty
string splits to `[""]`, and empty segments between adjacent separators are
preserved. -/
def pySplit (sep : Char) : List Char → List (List Char)
  | [] => [[]]
  | c :: cs =>
    match pySplit sep cs with
    | [] => [[c]]
    | r :: rs => if c = sep then [] :: r :: rs else (c :: r) :: rs

/-- The extractor's `path.split('.')` (file `extract_nested_values.py`,
line 47), producing the list of address segments. -/
def splitPath (path : String) : List String :=
  (pySplit (Char.ofNat 46) path.data).map String.mk

/-- One iteration of the key loop of `get_nested_value` (lines 50-54):
`none` models the loop having already returned `None`; otherwise the loop
descends into the current value's entry for `key` exactly when the current
value is a dict containing `key`, and returns `None` otherwise. -/
def resolveStep (cur : Option Json) (key : String) : Option Json :=
  match cur with
  | none => none
  | some (.obj kvs) => lookupKV kvs key
  | some _ => none

/-- `NestedValueExtractor.get_nested_value` (lines 35-58): split the path on
dots and run the key loop; the Python function returns the reached value, or
`None` when some segment fails to resolve — and Python's `None` is the JSON
`null`, so the result type is `Json` with `null` as the "not found" sentinel.
The `try/except` wrapper in the source is dead code: every operation in the
loop is total.  The function is a pure Lean function, hence total and
deterministic by construction. -/
def getNestedValue (obj : Json) (path : String) : Json :=
  match (splitPath path).foldl resolveStep (some obj) with
  | some v => v
  | none => .null

/-- Modelled from the spec: "split the address on `.`; starting from a
feature's Properties mapping, for each segment, descend into the current
value's entry for that key only if the current value is a mapping and
contains that key; if at any segment the current value is not a mapping or
lacks the key, resolution yields \"not found\" (not an error)".  `none` is
"not found"; `some v` is a successfully resolved value. -/
def resolveSpec : List String → Json → Option Json
  | [], v => some v
  | seg :: segs, v =>
    match v with
    | .obj kvs =>
      match lookupKV kvs seg with
      | some v2 => resolveSpec segs v2
      | none => none
    | _ => none

/-- `feature.get('properties', {})` (line 81).  Python's `dict.get` exists
only on mappings; a Feature of the data model is an object, and the model
totalises non-object features with the empty mapping (Python would raise
`AttributeError` there, outside the FeatureCollection data model). -/
def getProperties (feature : Json) : Json :=
  match feature with
  | .obj kvs =>
    match lookupKV kvs "properties" with
    | some v => v
    | none => .obj []
  | _ => .obj []

/-- The per-feature body of `extract_values` (lines 80-89): resolve the path
on the feature's properties; a non-`None` value is stringified, a `None`
result contributes the empty string. -/
def extractRow (path : String) (feature : Json) : String :=
  let value := getNestedValue (getProperties feature) path
  if isNone value then "" else pyStr value

/-- `'features' in self.data` for an object document; claims concern object
documents (Python's membership test on a non-dict either raises or is an
element/substring test, never yielding a feature list). -/
def hasFeaturesKey (data : Json) : Bool :=
  match data with
  | .obj kvs => (lookupKV kvs "features").isSome
  | _ => false

/-- `NestedValueExtractor.extract_values` (lines 60-91): an untruthy document
or one without a `features` key yields the empty list (the source prints an
error and returns `[]`); otherwise one output string per feature, in feature
order.  A `features` value that is not a list is modelled as `[]` (the source
would raise `TypeError` enumerating it; claims quantify over documents with a
feature list). -/
def extractValues (data : Json) (path : String) : List String :=
  if !(pyTruthy data) || !(hasFeaturesKey data) then []
  else
    match data with
    | .obj kvs =>
      match lookupKV kvs "features" with
      | some (.arr fs) => fs.map (extractRow path)
      | _ => []
    | _ => []

/-- The `features` list of a loaded document: `some fs` exactly when the
document is an object whose `features` entry is a list. -/
def getFeatures (data : Json) : Option (List Json) :=
  match data with
  | .obj kvs =>
    match lookupKV kvs "features" with
    | some (.arr fs) => some fs
    | _ => none
  | _ => none

/-- `NestedValueExtractor.run` (lines 173-225) after a successful load: the
run fails (returns `False`, line 203-205, "No values found") exactly when
`extract_values` returned an empty list; otherwise the CSV is written and the
run returns `True`. -/
def runExtractor (data : Json) (path : String) : Bool :=
  !(extractValues data path).isEmpty

/-- `main` (lines 227-244): exit status 1 when `run` returns `False`,
otherwise a normal exit 0. -/
def mainExitCode (data : Json) (path : String) : Nat :=
  if runExtractor data path then 0 else 1

/-- Python's `s.replace(old, new)` for a non-empty pattern, on character
lists, with an explicit fuel argument (one unit of fuel per examined
position; `fuel = s.length` always suffices because a step consumes at least
one input character).  Occurrences are found scanning left to right,
non-overlapping, and the scan continues after a replacement without
re-examining the freshly produced text — exactly Python's semantics.  An
empty pattern falls through to the identity (Python would instead interleave
`new` everywhere; the reconciler only ever replaces non-empty patterns). -/
def pyReplaceFuel (pat repl : List Char) : Nat → List Char → List Char
  | _, [] => []
  | 0, s => s
  | fuel + 1, c :: cs =>
    if pat.isPrefixOf (c :: cs) && !pat.isEmpty then
      repl ++ pyReplaceFuel pat repl fuel (cs.drop (pat.length - 1))
    else
      c :: pyReplaceFuel pat repl fuel cs

/-- Python's `s.replace(old, new)` for a non-empty pattern `pat`. -/
def pyReplace (pat repl s : List Char) : List Char :=
  pyReplaceFuel pat repl s.length s

namespace CheckNames

/-- `normalize` of `check_names.py` (lines 5-6):
`name.replace(" Province", "").replace(" County", "").replace(" ", "")`.
(The bare name `normalize` is taken by Mathlib, hence the namespace.) -/
def normalize (s : String) : String :=
  String.mk (pyReplace " ".data []
    (pyReplace " County".data []
      (pyReplace " Province".data [] s.data)))

end CheckNames

/-- The reconciler's first report group, `sorted(geojson_names - csv_names)`
(line 32): the set difference, listed in ascending lexicographic order. -/
def geoOnly (A B : Finset String) : List String :=
  (A \ B).sort (· ≤ ·)

/-- The reconciler's second report group, `sorted(csv_names - geojson_names)`
(line 36). -/
def csvOnly (A B : Finset String) : List String :=
  (B \ A).sort (· ≤ ·)

/-- The reconciler's third report group, `sorted(geojson_names & csv_names)`
(line 40). -/
def inBoth (A B : Finset String) : List String :=
  (A ∩ B).sort (· ≤ ·)

/-- One step of the analyzer's occurrence counting (lines 83-85): increment
the counter of `k` if one exists, else append `k` with count 1 at the end —
exactly the insertion-order behaviour of a Python dict. -/
def bumpKey : List (String × Nat) → String → List (String × Nat)
  | [], k => [(k, 1)]
  | (k0, n) :: rest, k =>
    if k0 = k then (k0, n + 1) :: rest else (k0, n) :: bumpKey rest k

/-- The analyzer's `all_properties` accumulation over the per-feature pass
(lines 78-85), given each feature's property keys in dict-iteration order:
keys appear in first-encounter order, each with its occurrence count. -/
def buildCounts (features : List (List String)) : List (String × Nat) :=
  features.foldl (fun acc keys => keys.foldl bumpKey acc) []

/-- The analyzer's ranking of properties (line 105),
`sorted(all_properties.items(), key=lambda x: x[1], reverse=True)`: a stable
merge sort by descending occurrence count (Python's `sorted` is stable, also
with `reverse=True`). -/
def rankProperties (props : List (String × Nat)) : List (String × Nat) :=
  props.mergeSort (fun a b => decide (b.2 ≤ a.2))

/-- The property keys of one feature, in dict-iteration (insertion) order:
`feature.get('properties', {}).items()` keys (lines 79-81 of the analyzer).
Feature properties are mappings in the data model; a non-mapping value is
modelled as having no keys (Python would raise `AttributeError` on
`.items()`). -/
def featureKeyList (f : Json) : List String :=
  match getProperties f with
  | .obj kvs => kvs.map Prod.fst
  | _ => []

/-- `GeoJSONAnalyzer.analyze_properties` (lines 68-109), restricted to the
`all_properties` aggregate: when the document is untruthy or has no
`features` key the method returns early (lines 70-71) and the analyzer's
`properties` aggregate keeps its initial empty-dict state, modelled as
`none`; otherwise the ranked occurrence counts are stored.  A `features`
value that is not a list is modelled as `none` (the source would raise
iterating it; claims quantify over documents with a feature list). -/
def analyzeProperties (data : Json) : Option (List (String × Nat)) :=
  if pyTruthy data && hasFeaturesKey data then
    match data with
    | .obj kvs =>
      match lookupKV kvs "features" with
      | some (.arr fs) => some (rankProperties (buildCounts (fs.map featureKeyList)))
      | _ => none
    | _ => none
  else none

/-- The first access of `generate_markdown` to the properties aggregate
(line 209: `self.analysis['properties']['all_properties']`): when
`analyze_properties` never stored the aggregate, the dict lookup raises an
uncaught `KeyError` — modelled as `Except.error` — before any report text is
written to disk (the file write happens only at line 279).  A clean reported
failure of the tool (load error) is instead a `False` return plus `exit(1)`,
so an `Except.error` here is not a clean exit. -/
def generateMarkdownProps (propsAnalysis : Option (List (String × Nat))) :
    Except String (List (String × Nat)) :=
  match propsAnalysis with
  | some allProps => Except.ok allProps
  | none => Except.error "KeyError: all_properties"

mutual
/-- `GeoJSONAnalyzer._count_coordinates` (lines 135-141):
`isinstance(coords, (int, float))` contributes 1 — note Python's `bool` is a
subclass of `int`, so a boolean also contributes 1; a list contributes the
sum over its elements; anything else contributes 0. -/
def countCoordinates : Json → Nat
  | .num _ => 1
  | .bool _ => 1
  | .arr xs => countCoordList xs
  | _ => 0
/-- Sum of `_count_coordinates` over the elements of a list (line 140). -/
def countCoordList : List Json → Nat
  | [] => 0
  | x :: xs => countCoordinates x + countCoordList xs
end

/-- `geometry.get('coordinates', [])` (line 126): the coordinate structure of
a geometry object, defaulting to the empty list when absent. -/
def coordsOf (geometry : Json) : Json :=
  match geometry with
  | .obj kvs =>
    match lookupKV kvs "coordinates" with
    | some v => v
    | none => .arr []
  | _ => .arr []

/-- Modelled from the spec: the claim's case split for the coordinate
counter — "a number contributes 1, a sequence contributes the sum over its
elements, anything else contributes 0".  `isNumOrSeq` decides whether a value
falls in one of the first two cases. -/
def isNumOrSeq : Json → Bool
  | .num _ => true
  | .arr _ => true
  | _ => false

/-! ### Helper lemmas -/

theorem foldl_resolveStep_none (ks : List String) :
    ks.foldl resolveStep none = none := by
  induction ks with
  | nil => rfl
  | cons k ks ih => simpa [resolveStep] using ih

theorem foldl_resolveStep_eq_resolveSpec :
    ∀ (ks : List String) (v : Json),
      ks.foldl resolveStep (some v) = resolveSpec ks v := by
  intro ks
  induction ks with
  | nil => intro v; rfl
  | cons k ks ih =>
    intro v
    cases v with
    | obj kvs =>
      simp only [List.foldl_cons, resolveStep, resolveSpec]
      cases lookupKV kvs k with
      | some v2 => exact ih v2
      | none => exact foldl_resolveStep_none ks
    | str s => simp [resolveStep, resolveSpec, foldl_resolveStep_none]
    | num n => simp [resolveStep, resolveSpec, foldl_resolveStep_none]
    | bool b => simp [resolveStep, resolveSpec, foldl_resolveStep_none]
    | null => simp [resolveStep, resolveSpec, foldl_resolveStep_none]
    | arr xs => simp [resolveStep, resolveSpec, foldl_resolveStep_none]

theorem extractRow_eq_specRow (path : String) (f : Json) :
    extractRow path f =
      (match resolveSpec (splitPath path) (getProperties f) with
       | some v => if isNone v then "" else pyStr v
       | none => "") := by
  unfold extractRow getNestedValue
  rw [foldl_resolveStep_eq_resolveSpec]
  cases resolveSpec (splitPath path) (getProperties f) with
  | none => rfl
  | some v => rfl

theorem countCoordList_eq_sum (xs : List Json) :
    countCoordList xs = (xs.map countCoordinates).sum := by
  induction xs with
  | nil => rfl
  | cons x xs ih => simp [countCoordList, ih]

/-! ### Claims about the Nested Path Extractor -/

/-- Claim C3: address resolution splits the address on the dot character and
descends per segment exactly when the current value is a mapping containing
that key, yielding the value or the "not found" sentinel (`null`, Python's
`None`); it is total and deterministic.  `getNestedValue` embeds the source's
early-return loop; `resolveSpec` is the spec's recursive resolution rule;
both are total Lean functions, so determinism and freedom from exceptions
hold by construction, and this theorem shows the loop refines the rule. -/
theorem c3_resolution_refines_spec (obj : Json) (path : String) :
    getNestedValue obj path = (resolveSpec (splitPath path) obj).getD Json.null := by
  unfold getNestedValue
  rw [foldl_resolveStep_eq_resolveSpec]
  cases resolveSpec (splitPath path) obj with
  | none => rfl
  | some v => rfl

theorem extractValues_eq_map {data : Json} {fs : List Json} (path : String)
    (h : getFeatures data = some fs) :
    extractValues data path = fs.map (extractRow path) := by
  cases data with
  | str s => simp [getFeatures] at h
  | num n => simp [getFeatures] at h
  | bool b => simp [getFeatures] at h
  | null => simp [getFeatures] at h
  | arr xs => simp [getFeatures] at h
  | obj kvs =>
    simp only [getFeatures] at h
    simp only [extractValues]
    cases hl : lookupKV kvs "features" with
    | none => rw [hl] at h; simp at h
    | some v =>
      rw [hl] at h
      cases v with
      | arr fs2 =>
        simp only [Option.some.injEq] at h
        subst h
        have hkvs : kvs ≠ [] := by
          intro hk; subst hk; simp [lookupKV] at hl
        simp [pyTruthy, hasFeaturesKey, hl, List.isEmpty_iff, hkvs]
      | str s => simp at h
      | num n => simp at h
      | bool b => simp at h
      | null => simp at h
      | obj kvs2 => simp at h

/-- Claim C4: for a document with a feature list (of Feature objects, per the
data model — a non-object feature would raise in Python), the extractor emits
exactly one output string per feature, in feature order: a value resolved at
the address is stringified, the "not found" sentinel (and hence also a
resolved `null`) becomes the empty string, and the output length equals the
feature count. -/
theorem c4_one_row_per_feature (data : Json) (fs : List Json) (path : String)
    (h : getFeatures data = some fs)
    (_hobj : ∀ f ∈ fs, ∃ kvs, f = Json.obj kvs) :
    (extractValues data path).length = fs.length ∧
    extractValues data path = fs.map (fun f =>
      match resolveSpec (splitPath path) (getProperties f) with
      | some v => if isNone v then "" else pyStr v
      | none => "") := by
  have hm := extractValues_eq_map path h
  refine ⟨by rw [hm, List.length_map], ?_⟩
  rw [hm]
  have hfun : extractRow path = fun f =>
      (match resolveSpec (splitPath path) (getProperties f) with
       | some v => if isNone v then "" else pyStr v
       | none => "") := funext (extractRow_eq_specRow path)
  rw [hfun]

/-- Witness for C4 at a one-feature document whose single feature has no
properties: one row, the empty string. -/
theorem c4_one_row_per_feature_witness :
    (extractValues (Json.obj [("features", Json.arr [Json.obj []])]) "a").length
      = [Json.obj []].length ∧
    extractValues (Json.obj [("features", Json.arr [Json.obj []])]) "a"
      = [Json.obj []].map (fun f =>
          match resolveSpec (splitPath "a") (getProperties f) with
          | some v => if isNone v then "" else pyStr v
          | none => "") :=
  c4_one_row_per_feature (Json.obj [("features", Json.arr [Json.obj []])])
    [Json.obj []] "a" rfl
    (by intro f hf
        rw [List.mem_singleton] at hf
        exact ⟨[], hf⟩)

/-- Claim C2 counterexample: a document with one feature whose address
resolves nowhere.  Every output value is the "not found" sentinel (the row
list is `[""]`), yet `run` returns `True` and the process exits 0 — because
`run` only fails when `extract_values` returns an *empty list*, and a list of
empty strings is truthy in Python.  This contradicts the claim that an
all-sentinel result is a terminal non-zero-exit failure. -/
theorem c2_counterexample :
    extractValues (Json.obj [("features",
        Json.arr [Json.obj [("properties", Json.obj [])]])]) "x" = [""] ∧
    runExtractor (Json.obj [("features",
        Json.arr [Json.obj [("properties", Json.obj [])]])]) "x" = true ∧
    mainExitCode (Json.obj [("features",
        Json.arr [Json.obj [("properties", Json.obj [])]])]) "x" = 0 :=
  ⟨rfl, rfl, rfl⟩

/-- Claim C2 as amended: for a loaded document with a feature list, the run
is treated as the terminal "no values found" failure (non-zero exit) exactly
when the extracted list is empty — that is, exactly when the feature list
itself is empty.  When at least one feature exists, a request whose address
resolves on no feature still yields a successful exit 0 (with every row the
empty string). -/
theorem c2_amended_fail_iff_no_features (data : Json) (fs : List Json)
    (path : String) (h : getFeatures data = some fs) :
    (runExtractor data path = false ↔ fs = []) ∧
    mainExitCode data path = (if fs.isEmpty then 1 else 0) := by
  have hm := extractValues_eq_map path h
  unfold mainExitCode runExtractor
  rw [hm]
  cases fs with
  | nil => simp
  | cons f fs => simp

/-- Witness for the amended C2 at a document with an empty feature list: the
run fails with exit status 1. -/
theorem c2_amended_fail_iff_no_features_witness :
    (runExtractor (Json.obj [("features", Json.arr [])]) "x" = false
      ↔ ([] : List Json) = []) ∧
    mainExitCode (Json.obj [("features", Json.arr [])]) "x"
      = (if ([] : List Json).isEmpty then 1 else 0) :=
  c2_amended_fail_iff_no_features (Json.obj [("features", Json.arr [])]) [] "x" rfl

/-- Claim C10: a feature whose value at the requested address is JSON `null`
gets the empty string as its output row — exactly the row produced for a
feature on which the address does not resolve at all, so a present `null` is
indistinguishable in the output from a failed resolution.  (In the source
this is forced: `get_nested_value` returns Python `None` both for a missing
path and for a stored JSON `null`, and `extract_values` maps `None` to
`""`.) -/
theorem c10_null_gives_empty_row (f g : Json) (path : String)
    (hf : resolveSpec (splitPath path) (getProperties f) = some Json.null)
    (hg : resolveSpec (splitPath path) (getProperties g) = none) :
    extractRow path f = "" ∧ extractRow path f = extractRow path g := by
  have h1 := extractRow_eq_specRow path f
  have h2 := extractRow_eq_specRow path g
  rw [hf] at h1
  rw [hg] at h2
  simp only [isNone, if_true] at h1
  exact ⟨h1, by rw [h1, h2]⟩

/-- Witness for C10: feature `f` stores `null` under key `"a"`, feature `g`
has no properties at all; both rows are the empty string. -/
theorem c10_null_gives_empty_row_witness :
    extractRow "a" (Json.obj [("properties", Json.obj [("a", Json.null)])]) = "" ∧
    extractRow "a" (Json.obj [("properties", Json.obj [("a", Json.null)])])
      = extractRow "a" (Json.obj []) :=
  c10_null_gives_empty_row (Json.obj [("properties", Json.obj [("a", Json.null)])])
    (Json.obj []) "a" rfl rfl

/-! ### Claims about the Schema Analyzer -/

/-- Claim C8 counterexample: the JSON boolean `true` is neither a number nor
a sequence, yet `_count_coordinates` maps it to 1, not 0 — because Python's
`bool` is a subclass of `int`, so `isinstance(True, (int, float))` holds.
This contradicts the claim's "anything else to 0". -/
theorem c8_counterexample :
    isNumOrSeq (Json.bool true) = false ∧ countCoordinates (Json.bool true) = 1 :=
  ⟨rfl, rfl⟩

/-- Claim C8 as amended: the recursive coordinate counter maps a number to 1,
a boolean also to 1 (Python booleans are integers), a sequence to the sum of
the counts of its elements, and anything else (string, `null`, mapping) to 0;
in particular `[[1,2],[3,4]]` counts 4, `[1,2]` counts 2, and `[]` or an
absent coordinate structure (which defaults to `[]`) counts 0. -/
theorem c8_amended_counter_cases :
    (∀ n : Int, countCoordinates (Json.num n) = 1) ∧
    (∀ b : Bool, countCoordinates (Json.bool b) = 1) ∧
    (∀ s : String, countCoordinates (Json.str s) = 0) ∧
    countCoordinates Json.null = 0 ∧
    (∀ kvs, countCoordinates (Json.obj kvs) = 0) ∧
    (∀ xs, countCoordinates (Json.arr xs) = (xs.map countCoordinates).sum) ∧
    countCoordinates (Json.arr [Json.arr [Json.num 1, Json.num 2],
      Json.arr [Json.num 3, Json.num 4]]) = 4 ∧
    countCoordinates (Json.arr [Json.num 1, Json.num 2]) = 2 ∧
    countCoordinates (Json.arr []) = 0 ∧
    countCoordinates (coordsOf (Json.obj [])) = 0 :=
  ⟨fun _ => rfl, fun _ => rfl, fun _ => rfl, rfl, fun _ => rfl,
   fun xs => countCoordList_eq_sum xs, rfl, rfl, rfl, rfl⟩

/-- Claim C9: on a well-formed document without a `features` key,
`analyze_properties` returns early, leaving the analyzer's `properties`
aggregate without its `all_properties` entry, and `generate_markdown` then
raises an uncaught `KeyError` on its first access to that entry (before any
report text is written to disk) — so no report is produced and the failure is
not the clean reported non-zero exit used for load errors. -/
theorem c9_missing_features_keyerror (kvs : List (String × Json))
    (h : lookupKV kvs "features" = none) :
    generateMarkdownProps (analyzeProperties (Json.obj kvs)) =
      Except.error "KeyError: all_properties" := by
  simp [analyzeProperties, hasFeaturesKey, h, generateMarkdownProps]

/-- Witness for C9 at the document `{"type": "FeatureCollection"}`. -/
theorem c9_missing_features_keyerror_witness :
    generateMarkdownProps (analyzeProperties
        (Json.obj [("type", Json.str "FeatureCollection")])) =
      Except.error "KeyError: all_properties" :=
  c9_missing_features_keyerror [("type", Json.str "FeatureCollection")] rfl

/-- Claim C7: the analyzer's rendered property list —
`dict(sorted(all_properties.items(), key=lambda x: x[1], reverse=True))` over
the encounter-ordered occurrence counts — is in descending order of
occurrence count, is a permutation of the aggregate (no property is lost),
and is stable: any two properties with equal counts keep their original
encounter order (`[a, b]` in encounter order stays a sublist of the ranked
output).  `buildCounts` lists properties in order of first appearance during
the per-feature pass, as a Python dict does. -/
theorem c7_ranking_sorted_stable (features : List (List String))
    (a b : String × Nat) (hab : [a, b].Sublist (buildCounts features))
    (heq : a.2 = b.2) :
    (rankProperties (buildCounts features)).Pairwise (fun x y => y.2 ≤ x.2) ∧
    (rankProperties (buildCounts features)).Perm (buildCounts features) ∧
    [a, b].Sublist (rankProperties (buildCounts features)) := by
  have htr : ∀ (x y z : String × Nat),
      (fun u v : String × Nat => decide (v.2 ≤ u.2)) x y = true →
      (fun u v : String × Nat => decide (v.2 ≤ u.2)) y z = true →
      (fun u v : String × Nat => decide (v.2 ≤ u.2)) x z = true := by
    intro x y z h1 h2
    simp only [decide_eq_true_eq] at h1 h2 ⊢
    omega
  have htot : ∀ (x y : String × Nat),
      ((fun u v : String × Nat => decide (v.2 ≤ u.2)) x y ||
       (fun u v : String × Nat => decide (v.2 ≤ u.2)) y x) = true := by
    intro x y
    rcases Nat.le_total y.2 x.2 with h | h <;> simp [h]
  refine ⟨?_, List.mergeSort_perm _ _, ?_⟩
  · have hs := List.sorted_mergeSort htr htot (buildCounts features)
    exact hs.imp (fun h => by simpa using h)
  · refine List.sublist_mergeSort htr htot ?_ hab
    simp [List.pairwise_cons, heq]

/-- Witness for C7 at two one-property features with distinct keys: both
counts are 1, so the ranked list keeps `("p", 1)` before `("q", 1)`. -/
theorem c7_ranking_sorted_stable_witness :
    (rankProperties (buildCounts [["p"], ["q"]])).Pairwise (fun x y => y.2 ≤ x.2) ∧
    (rankProperties (buildCounts [["p"], ["q"]])).Perm (buildCounts [["p"], ["q"]]) ∧
    [(("p" : String), (1 : Nat)), ("q", 1)].Sublist
      (rankProperties (buildCounts [["p"], ["q"]])) :=
  c7_ranking_sorted_stable [["p"], ["q"]] ("p", 1) ("q", 1)
    (List.Sublist.refl _) rfl

/-! ### Claims about the Name Reconciler -/

/-- Claim C5: for normalized name sets `A` (GeoJSON) and `B` (CSV), the three
reported groups — `A − B`, `B − A`, `A ∩ B` — are each printed as a
lexicographically sorted list, are pairwise disjoint, and together cover
exactly `A ∪ B`. -/
theorem c5_partition_of_union (A B : Finset String) :
    (geoOnly A B).Sorted (· ≤ ·) ∧ (csvOnly A B).Sorted (· ≤ ·) ∧
    (inBoth A B).Sorted (· ≤ ·) ∧
    (geoOnly A B).Disjoint (csvOnly A B) ∧
    (geoOnly A B).Disjoint (inBoth A B) ∧
    (csvOnly A B).Disjoint (inBoth A B) ∧
    (∀ x, (x ∈ geoOnly A B ∨ x ∈ csvOnly A B ∨ x ∈ inBoth A B) ↔
      (x ∈ A ∨ x ∈ B)) := by
  refine ⟨Finset.sort_sorted _ _, Finset.sort_sorted _ _, Finset.sort_sorted _ _,
    ?_, ?_, ?_, ?_⟩
  · intro x hx hy
    rw [geoOnly, Finset.mem_sort, Finset.mem_sdiff] at hx
    rw [csvOnly, Finset.mem_sort, Finset.mem_sdiff] at hy
    exact hx.2 hy.1
  · intro x hx hy
    rw [geoOnly, Finset.mem_sort, Finset.mem_sdiff] at hx
    rw [inBoth, Finset.mem_sort, Finset.mem_inter] at hy
    exact hx.2 hy.2
  · intro x hx hy
    rw [csvOnly, Finset.mem_sort, Finset.mem_sdiff] at hx
    rw [inBoth, Finset.mem_sort, Finset.mem_inter] at hy
    exact hx.2 hy.1
  · intro x
    simp only [geoOnly, csvOnly, inBoth, Finset.mem_sort, Finset.mem_sdiff,
      Finset.mem_inter]
    tauto

/-! ### Claims about the Name Reconciler's normalization -/

theorem pyReplaceFuel_single_eq_filter (c : Char) :
    ∀ (fuel : Nat) (s : List Char), s.length ≤ fuel →
      pyReplaceFuel [c] [] fuel s = s.filter (fun x => x != c) := by
  intro fuel
  induction fuel with
  | zero =>
    intro s hs
    cases s with
    | nil => rfl
    | cons a as => simp at hs
  | succ n ih =>
    intro s hs
    cases s with
    | nil => rfl
    | cons a as =>
      have hlen : as.length ≤ n := by
        simpa using Nat.le_of_succ_le_succ (by simpa using hs)
      by_cases hca : c = a
      · subst hca
        simp only [pyReplaceFuel, List.isPrefixOf, beq_self_eq_true, Bool.and_true,
          Bool.true_and, List.isEmpty_cons, Bool.not_false, List.length_cons,
          List.length_nil, Nat.zero_add, Nat.sub_self, List.drop_zero,
          List.nil_append, if_true, List.filter_cons]
        rw [ih as hlen]
        simp
      · have hba : (c == a) = false := by
          rw [beq_eq_false_iff_ne]
          exact hca
        simp only [pyReplaceFuel, List.isPrefixOf, hba, Bool.false_and,
          Bool.and_true, if_neg, List.filter_cons]
        rw [if_neg (by simp), ih as hlen]
        have : (a != c) = true := by
          rw [bne_iff_ne]
          exact fun hEq => hca hEq.symm
        simp [this]

theorem pyReplaceFuel_head_not_mem (h : Char) (t repl : List Char) :
    ∀ (fuel : Nat) (s : List Char), h ∉ s →
      pyReplaceFuel (h :: t) repl fuel s = s := by
  intro fuel
  induction fuel with
  | zero => intro s _; cases s <;> rfl
  | succ n ih =>
    intro s hs
    cases s with
    | nil => rfl
    | cons a as =>
      have hha : (h == a) = false := by
        rw [beq_eq_false_iff_ne]
        intro hEq
        exact hs (hEq ▸ List.mem_cons_self a as)
      have has : h ∉ as := fun hm => hs (List.mem_cons_of_mem a hm)
      simp only [pyReplaceFuel, List.isPrefixOf, hha, Bool.false_and]
      rw [if_neg (by simp), ih as has]

theorem normalize_data_eq_filter (s : String) :
    (CheckNames.normalize s).data =
      (pyReplace " County".data [] (pyReplace " Province".data [] s.data)).filter
        (fun x => x != Char.ofNat 32) := by
  show pyReplace " ".data []
      (pyReplace " County".data [] (pyReplace " Province".data [] s.data)) = _
  rw [show " ".data = [Char.ofNat 32] from rfl]
  exact pyReplaceFuel_single_eq_filter _ _ _ le_rfl

theorem normalize_no_space (s : String) :
    Char.ofNat 32 ∉ (CheckNames.normalize s).data := by
  rw [normalize_data_eq_filter]
  intro hm
  have := List.of_mem_filter hm
  simp at this

theorem normalize_fixes_space_free (r : String)
    (hr : Char.ofNat 32 ∉ r.data) :
    CheckNames.normalize r = r := by
  unfold CheckNames.normalize pyReplace
  rw [pyReplaceFuel_head_not_mem (Char.ofNat 32) "Province".data [] _ _ hr]
  rw [pyReplaceFuel_head_not_mem (Char.ofNat 32) "County".data [] _ _ hr]
  rw [pyReplaceFuel_head_not_mem (Char.ofNat 32) [] [] _ _ hr]

/-- Claim C1 counterexample: normalization does *not* remove every remaining
whitespace character — only the literal space (U+0020).  On `"a\tb"` the tab
(a whitespace character) survives, so the result is `"a\tb"`, not `"ab"`. -/
theorem c1_counterexample :
    CheckNames.normalize "a\tb" = "a\tb" ∧
    (Char.ofNat 9).isWhitespace = true ∧
    Char.ofNat 9 ∈ (CheckNames.normalize "a\tb").data ∧
    CheckNames.normalize "a\tb" ≠ "ab" :=
  ⟨by decide, by decide, by decide, by decide⟩

/-- Claim C1 as amended: normalization first removes every occurrence of the
literal substrings `" Province"` and then `" County"`, and then removes all
remaining *space characters (U+0020) only* — other whitespace characters such
as tab are kept — in that order, with no case folding.  The final
`.replace(" ", "")` is exactly a filter dropping the space character. -/
theorem c1_amended_space_only_removal (s : String) :
    CheckNames.normalize s = String.mk
      ((pyReplace " County".data [] (pyReplace " Province".data [] s.data)).filter
        (fun x => x != Char.ofNat 32)) := by
  rw [← normalize_data_eq_filter]

/-- Claim C6: normalization is idempotent.  The final step of `normalize`
removes every space character, so its output contains no space; each of the
three replaced patterns (`" Province"`, `" County"`, `" "`) begins with a
space, so on a space-free string all three replacements are the identity. -/
theorem c6_normalize_idempotent (s : String) :
    CheckNames.normalize (CheckNames.normalize s) = CheckNames.normalize s :=
  normalize_fixes_space_free _ (normalize_no_space s)
